import Mathlib

/-
Verification of the tool-call example workflow module.

The module consists of:
  * a helper predicate isToolCall over an LLM response message
    (src/tool-call.workflow.ts, lines 22-25);
  * a stub weather tool GetWeather (src/tools/get-weather.tool.ts);
  * a declarative routing table for an agentic loop
    (ready -> prompt_executed -> loop back to ready on tool calls, else end),
    excerpted in the repository README.

JavaScript semantics that matter here are modelled explicitly: the helper is
written as
    message?.parts.some((part) => part.type.startsWith('tool-'))
so a nullish message short-circuits to undefined (a falsy non-boolean), while a
defined message whose parts field is undefined raises a TypeError when .some is
invoked on undefined.
-/

namespace ToolCallWF

/-- Arguments of the weather tool: a record with a required location string
(the Zod schema in src/tools/get-weather.tool.ts). -/
structure ToolArgs where
  location : String
deriving DecidableEq, Repr

/-- The contract a tool must return (ToolResult in the source): a type tag and
a data payload, both strings in this example. -/
structure ToolResult where
  type : String
  data : String
deriving DecidableEq, Repr

/-- The executed-tool output payload carried by a message part after dispatch:
a record of shape (type, value), per the data model and the test fixtures. -/
structure PartOutput where
  type : String
  value : String
deriving DecidableEq, Repr

/-- A message part. Tagged by a type string; tool-call parts additionally carry
a tool-call id, an input payload, a lifecycle state, and (once executed) an
output payload; text parts carry free text. Optional fields model fields that
may be absent on a given part object. -/
structure Part where
  type : String
  toolCallId : Option String := none
  input : Option ToolArgs := none
  state : Option String := none
  text : Option String := none
  output : Option PartOutput := none
deriving DecidableEq, Repr

/-- A message produced by the LLM collaborator: a role and an ordered sequence
of parts. -/
structure Message where
  role : String
  parts : List Part
deriving DecidableEq, Repr

/-- The argument actually handed to the helper at the JavaScript level: the
value may be undefined or null, or a defined object whose parts field may
itself be undefined (modelled by the none case of the Option). -/
inductive MessageArg where
  | undefined : MessageArg
  | null : MessageArg
  | obj (role : Option String) (parts : Option (List Part)) : MessageArg
deriving DecidableEq, Repr

/-- View a proper Message as the helper argument: a defined object whose parts
field is present. -/
def Message.arg (m : Message) : MessageArg :=
  MessageArg.obj (some m.role) (some m.parts)

/-- Outcome of evaluating the helper expression at the JavaScript level: the
value undefined, a boolean, or a raised TypeError. -/
inductive JsOutcome where
  | undef : JsOutcome
  | bool (b : Bool) : JsOutcome
  | typeError : JsOutcome
deriving DecidableEq, Repr

/-- True exactly when the outcome is a boolean value. -/
def JsOutcome.isBool : JsOutcome → Bool
  | JsOutcome.bool _ => true
  | _ => false

/-- True exactly when the outcome is a value (not an error) that JavaScript
treats as falsy: undefined, or the boolean false. -/
def JsOutcome.isFalsyValue : JsOutcome → Bool
  | JsOutcome.undef => true
  | JsOutcome.bool b => !b
  | JsOutcome.typeError => false

/-- True exactly when evaluating the expression raised an error. -/
def JsOutcome.isError : JsOutcome → Bool
  | JsOutcome.typeError => true
  | _ => false

/-- True exactly when the outcome is a truthy value; this is how the routing
condition expression consumes the helper result. -/
def JsOutcome.isTruthy : JsOutcome → Bool
  | JsOutcome.bool b => b
  | _ => false

/-- JavaScript String.prototype.startsWith, modelled at the level of
character sequences: s starts with pre iff the characters of pre are a prefix
of the characters of s. -/
def jsStartsWith (s pre : String) : Bool :=
  pre.data.isPrefixOf s.data

/-- The tool name carried by a tool-call part type: the characters after the
five-character tool part prefix. -/
def toolNameOf (type : String) : String :=
  String.mk (type.data.drop 5)

/-- The helper predicate from src/tool-call.workflow.ts, lines 22-25:
    isToolCall(message) := message?.parts.some((part) => part.type.startsWith('tool-'))
Optional chaining makes a nullish message yield undefined; a defined message
with undefined parts raises a TypeError at the .some call; otherwise .some
returns whether any part type starts with the prefix. -/
def isToolCall : MessageArg → JsOutcome
  | MessageArg.undefined => JsOutcome.undef
  | MessageArg.null => JsOutcome.undef
  | MessageArg.obj _ none => JsOutcome.typeError
  | MessageArg.obj _ (some parts) =>
      JsOutcome.bool (parts.any fun part => jsStartsWith part.type "tool-")

namespace GetWeather

/-- GetWeather.execute from src/tools/get-weather.tool.ts, lines 16-25: the
method takes no parameter (the validated location argument is ignored
entirely) and returns a fixed ToolResult; there is no throw and the promise
always resolves. Modelled as a total function of the validated arguments. -/
def execute (_args : ToolArgs) : ToolResult :=
  { type := "text", data := "Mostly sunny, 14C, rain in the afternoon." }

end GetWeather

/-- Modelled from the spec: the tool-dispatch collaborator (the
DelegateToolCall tool of the external ai-module; its implementation is not in
src/). Given a registry resolving a tool name to an execute function and a
message, it inspects each part whose type starts with the tool prefix, strips
the prefix to obtain the tool name, executes the resolved tool on the part
input, and returns a result message whose parts carry the output-available
state and the tool output as a (type, value) record, preserving input order
and tool-call ids. -/
def delegateToolCall (resolve : String → Option (ToolArgs → ToolResult))
    (m : Message) : Message :=
  { role := m.role,
    parts := m.parts.map fun p =>
      if jsStartsWith p.type "tool-" then
        match resolve (toolNameOf p.type), p.input with
        | some exec, some args =>
            { p with
                state := some "output-available",
                output := some { type := (exec args).type, value := (exec args).data } }
        | _, _ => p
      else p }

/-- The tool registry of this workflow, restricted to the one custom tool it
registers: the name GetWeather resolves to the weather tool. -/
def registry : String → Option (ToolArgs → ToolResult) :=
  fun name => if name = "GetWeather" then some GetWeather.execute else none

/-- The places of the routing table (README excerpt, route_with_tool_calls /
route_without_tool_calls): ready, prompt_executed, and the terminal end place
(named end_ because end is reserved). -/
inductive Place where
  | ready : Place
  | prompt_executed : Place
  | end_ : Place
deriving DecidableEq, Repr

/-- True exactly at the terminal place. -/
def Place.isEnd : Place → Bool
  | Place.end_ => true
  | _ => false

/-- The workflow state declared by the WithState schema in
src/tool-call.workflow.ts: the latest LLM response and the latest tool-call
dispatch result, both initially undefined. -/
structure WorkflowState where
  llmResponse : Option Message
  toolCallResult : Option Message
deriving DecidableEq, Repr

/-- A configuration of one workflow run: the current place, the workflow
state, the number of LLM calls made so far (which indexes the LLM oracle), the
places visited so far in order, and the messages passed to the dispatcher so
far in order. -/
structure Config where
  place : Place
  ws : WorkflowState
  llmCalls : Nat
  visited : List Place
  dispatched : List Message
deriving DecidableEq, Repr

/-- The initial configuration: at ready with empty state and no calls made. -/
def initConfig : Config :=
  { place := Place.ready,
    ws := { llmResponse := none, toolCallResult := none },
    llmCalls := 0,
    visited := [Place.ready],
    dispatched := [] }

/-- Modelled from the spec: one step of the agentic loop controller. The YAML
transition table itself is not in src/; its two routing transitions are
excerpted in the repository README (route_with_tool_calls: prompt_executed to
ready when the isToolCall condition is truthy; route_without_tool_calls:
prompt_executed to end), and the spec fixes the sequencing: from ready the LLM
collaborator is invoked and its response stored before moving to
prompt_executed; from prompt_executed, when the detector is truthy the
dispatcher is invoked with the latest LLM response and its result stored while
looping back to ready, otherwise the run ends. The LLM collaborator is an
oracle indexed by the number of calls made; the dispatcher is a parameter. -/
def step (llm : Nat → Message) (dispatch : Message → Message) (c : Config) :
    Config :=
  match c.place with
  | Place.ready =>
      let resp := llm c.llmCalls
      { place := Place.prompt_executed,
        ws := { llmResponse := some resp, toolCallResult := c.ws.toolCallResult },
        llmCalls := c.llmCalls + 1,
        visited := c.visited ++ [Place.prompt_executed],
        dispatched := c.dispatched }
  | Place.prompt_executed =>
      match c.ws.llmResponse with
      | some m =>
          if (isToolCall (Message.arg m)).isTruthy then
            let res := dispatch m
            { place := Place.ready,
              ws := { llmResponse := c.ws.llmResponse, toolCallResult := some res },
              llmCalls := c.llmCalls,
              visited := c.visited ++ [Place.ready],
              dispatched := c.dispatched ++ [m] }
          else
            { place := Place.end_,
              ws := c.ws,
              llmCalls := c.llmCalls,
              visited := c.visited ++ [Place.end_],
              dispatched := c.dispatched }
      | none =>
          { place := Place.end_,
            ws := c.ws,
            llmCalls := c.llmCalls,
            visited := c.visited ++ [Place.end_],
            dispatched := c.dispatched }
  | Place.end_ => c

/-- The configuration after n steps from the initial configuration. -/
def runSteps (llm : Nat → Message) (dispatch : Message → Message) : Nat → Config
  | 0 => initConfig
  | Nat.succ n => step llm dispatch (runSteps llm dispatch n)

/-- The output payload a dispatched weather-tool part carries: the weather
tool's fixed ToolResult, recorded as a (type, value) record. -/
def weatherOutput : PartOutput :=
  { type := "text", value := "Mostly sunny, 14C, rain in the afternoon." }

/-- The single-tool-call LLM response fixture of the test suite: one part of
type tool-GetWeather with tool-call id tool_call_1, location Berlin, in the
input-available state. -/
def msgBerlinCall : Message :=
  { role := "assistant",
    parts := [
      { type := "tool-GetWeather",
        toolCallId := some "tool_call_1",
        input := some { location := "Berlin" },
        state := some "input-available" } ] }

/-- The final plain-text LLM response fixture: a single text part and no
tool-call part. -/
def msgFinal : Message :=
  { role := "assistant",
    parts := [
      { type := "text",
        text := some "The weather in Berlin is mild." } ] }

/-- The two-tool-call LLM response fixture of the test suite: parts for Berlin
(tool_call_1) and Munich (tool_call_2), both input-available. -/
def msgMultiCall : Message :=
  { role := "assistant",
    parts := [
      { type := "tool-GetWeather",
        toolCallId := some "tool_call_1",
        input := some { location := "Berlin" },
        state := some "input-available" },
      { type := "tool-GetWeather",
        toolCallId := some "tool_call_2",
        input := some { location := "Munich" },
        state := some "input-available" } ] }

/-- LLM oracle for the single-tool-call scenario: first response requests the
weather tool, every later response is the final text answer. -/
def llmBerlin : Nat → Message := fun i => if i = 0 then msgBerlinCall else msgFinal

/-- LLM oracle for the no-tool-call scenario: every response is plain text. -/
def llmNoTool : Nat → Message := fun _ => msgFinal

/-- LLM oracle for the two-tool-call scenario. -/
def llmMulti : Nat → Message := fun i => if i = 0 then msgMultiCall else msgFinal

/-- LLM oracle that requests a tool call on every turn. -/
def llmAlwaysTool : Nat → Message := fun _ => msgBerlinCall

/-- The dispatcher of this workflow: the tool-dispatch collaborator resolving
against the registry that holds the weather tool. -/
def dispatchGW : Message → Message := delegateToolCall registry

/-- C1: for every defined message, isToolCall returns true if and only if at
least one of the message's parts has a type string starting with the prefix
of tool parts; in particular it returns false when the parts list is empty. -/
theorem isToolCall_true_iff_toolPart (m : Message) :
    (isToolCall (Message.arg m) = JsOutcome.bool true ↔
      ∃ p ∈ m.parts, jsStartsWith p.type "tool-" = true)
    ∧ (m.parts = [] → isToolCall (Message.arg m) = JsOutcome.bool false) := by
  constructor
  · simp [isToolCall, Message.arg, List.any_eq_true]
  · intro h
    simp [isToolCall, Message.arg, h]

/-- Witness for C1: on a concrete message with an empty parts list the
detector returns false. -/
theorem isToolCall_true_iff_toolPart_witness :
    isToolCall (Message.arg { role := "assistant", parts := [] }) =
      JsOutcome.bool false :=
  (isToolCall_true_iff_toolPart { role := "assistant", parts := [] }).2 rfl

/-- C3: for every input, GetWeather.execute returns exactly the fixed
ToolResult of type text with the canned weather string; the output is
independent of the location argument and there is no failure path (the
function is total into ToolResult). -/
theorem getWeather_execute_const (a : ToolArgs) :
    GetWeather.execute a =
      { type := "text", data := "Mostly sunny, 14C, rain in the afternoon." } :=
  rfl

/-- Counterexample for C7: at the concrete input undefined the detector
evaluates to the JavaScript value undefined, which is not a boolean. -/
theorem isToolCall_undefined_not_boolean :
    isToolCall MessageArg.undefined = JsOutcome.undef
    ∧ (isToolCall MessageArg.undefined).isBool = false :=
  ⟨rfl, rfl⟩

/-- C7 as amended: for every defined Message the detector returns a boolean;
on undefined input it returns undefined, a falsy non-boolean value. -/
theorem isToolCall_boolean_on_messages :
    (∀ m : Message, (isToolCall (Message.arg m)).isBool = true)
    ∧ isToolCall MessageArg.undefined = JsOutcome.undef :=
  ⟨fun _ => rfl, rfl⟩

/-- C8: when the message argument is undefined or absent, the detector
returns a falsy result and no error is raised. -/
theorem isToolCall_undefined_falsy_no_error :
    (isToolCall MessageArg.undefined).isFalsyValue = true
    ∧ (isToolCall MessageArg.undefined).isError = false :=
  ⟨rfl, rfl⟩

/-- C10: the missing-input guard covers only the message itself: for every
defined message object whose parts field is undefined, the detector raises a
TypeError instead of returning false. -/
theorem isToolCall_missing_parts_typeError (role : Option String) :
    isToolCall (MessageArg.obj role none) = JsOutcome.typeError
    ∧ isToolCall (MessageArg.obj role none) ≠ JsOutcome.bool false :=
  ⟨rfl, fun h => JsOutcome.noConfusion h⟩

/-- C2: in the loop controller's step relation, from place prompt_executed
with a latest LLM response present, the workflow transitions back to ready,
invoking the dispatcher on that response and storing its result, exactly when
isToolCall holds of the response, and transitions to the terminal end place,
leaving the dispatch log unchanged, exactly when it does not. -/
theorem prompt_executed_routing (llm : Nat → Message)
    (dispatch : Message → Message) (c : Config) (m : Message)
    (hp : c.place = Place.prompt_executed)
    (hm : c.ws.llmResponse = some m) :
    ((step llm dispatch c).place = Place.ready ↔
        isToolCall (Message.arg m) = JsOutcome.bool true)
    ∧ ((step llm dispatch c).place = Place.end_ ↔
        ¬ isToolCall (Message.arg m) = JsOutcome.bool true)
    ∧ (isToolCall (Message.arg m) = JsOutcome.bool true →
        (step llm dispatch c).dispatched = c.dispatched ++ [m]
        ∧ (step llm dispatch c).ws.toolCallResult = some (dispatch m))
    ∧ (¬ isToolCall (Message.arg m) = JsOutcome.bool true →
        (step llm dispatch c).dispatched = c.dispatched) := by
  obtain ⟨pl, ⟨lr, tr⟩, k, v, d⟩ := c
  dsimp only at hp hm
  subst hp
  subst hm
  by_cases h : (m.parts.any fun part => jsStartsWith part.type "tool-") = true
  · simp [step, isToolCall, Message.arg, JsOutcome.isTruthy, h]
  · simp [step, isToolCall, Message.arg, JsOutcome.isTruthy, h]

/-- Witness for C2: at a concrete configuration sitting at prompt_executed
whose latest LLM response contains a tool-call part, the step goes back to
ready. -/
theorem prompt_executed_routing_witness :
    (step llmBerlin dispatchGW
      { place := Place.prompt_executed,
        ws := { llmResponse := some msgBerlinCall, toolCallResult := none },
        llmCalls := 1,
        visited := [Place.ready, Place.prompt_executed],
        dispatched := [] }).place = Place.ready :=
  (prompt_executed_routing llmBerlin dispatchGW _ msgBerlinCall rfl rfl).1.mpr rfl

/-- C4: in the single-tool-call scenario (first LLM response has exactly one
tool-call part, second has none), the run performs two LLM calls and exactly
one dispatch call, visits the places ready, prompt_executed, ready,
prompt_executed, end in that order, and is terminal afterwards. -/
theorem single_tool_call_run :
    (runSteps llmBerlin dispatchGW 4).place = Place.end_
    ∧ (runSteps llmBerlin dispatchGW 4).visited =
        [Place.ready, Place.prompt_executed, Place.ready,
          Place.prompt_executed, Place.end_]
    ∧ (runSteps llmBerlin dispatchGW 4).llmCalls = 2
    ∧ (runSteps llmBerlin dispatchGW 4).dispatched = [msgBerlinCall]
    ∧ runSteps llmBerlin dispatchGW 5 = runSteps llmBerlin dispatchGW 4 :=
  ⟨rfl, rfl, rfl, rfl, rfl⟩

/-- C5: in the no-tool-call scenario (the LLM response has only a text part),
the run performs exactly one LLM call and zero dispatch calls, goes directly
through ready, prompt_executed, end, visits ready exactly once, and is
terminal afterwards. -/
theorem no_tool_call_run :
    (runSteps llmNoTool dispatchGW 2).place = Place.end_
    ∧ (runSteps llmNoTool dispatchGW 2).visited =
        [Place.ready, Place.prompt_executed, Place.end_]
    ∧ (runSteps llmNoTool dispatchGW 2).llmCalls = 1
    ∧ (runSteps llmNoTool dispatchGW 2).dispatched = []
    ∧ (runSteps llmNoTool dispatchGW 2).visited.count Place.ready = 1
    ∧ runSteps llmNoTool dispatchGW 3 = runSteps llmNoTool dispatchGW 2 :=
  ⟨rfl, rfl, rfl, rfl, rfl, rfl⟩

/-- C6: in the two-tool-call scenario, the run makes exactly one dispatch
call, passing the whole two-part message; the stored dispatch result has one
output part per input tool-call part, in input order with matching tool-call
ids, each in the output-available state carrying the weather tool's output;
the loop then issues its final LLM call (two in total) and terminates. -/
theorem multi_tool_call_run :
    (runSteps llmMulti dispatchGW 4).dispatched = [msgMultiCall]
    ∧ (runSteps llmMulti dispatchGW 4).ws.toolCallResult =
        some { role := "assistant",
               parts := [
                 { type := "tool-GetWeather",
                   toolCallId := some "tool_call_1",
                   input := some { location := "Berlin" },
                   state := some "output-available",
                   output := some weatherOutput },
                 { type := "tool-GetWeather",
                   toolCallId := some "tool_call_2",
                   input := some { location := "Munich" },
                   state := some "output-available",
                   output := some weatherOutput } ] }
    ∧ (dispatchGW msgMultiCall).parts.length = msgMultiCall.parts.length
    ∧ (dispatchGW msgMultiCall).parts.map Part.toolCallId =
        msgMultiCall.parts.map Part.toolCallId
    ∧ (runSteps llmMulti dispatchGW 4).place = Place.end_
    ∧ (runSteps llmMulti dispatchGW 4).llmCalls = 2
    ∧ (runSteps llmMulti dispatchGW 4).visited =
        [Place.ready, Place.prompt_executed, Place.ready,
          Place.prompt_executed, Place.end_] :=
  ⟨rfl, rfl, rfl, rfl, rfl, rfl, rfl⟩

/-- Invariant of the always-tool-call run: the configuration is either at
ready, or at prompt_executed with the tool-call response stored as the latest
LLM response. -/
def loopInv (c : Config) : Prop :=
  c.place = Place.ready ∨
    (c.place = Place.prompt_executed ∧ c.ws.llmResponse = some msgBerlinCall)

/-- The invariant is preserved by every step under the always-tool-call
oracle. -/
theorem loopInv_step (c : Config) (h : loopInv c) :
    loopInv (step llmAlwaysTool dispatchGW c) := by
  obtain ⟨pl, ⟨lr, tr⟩, k, v, d⟩ := c
  rcases h with h | ⟨h1, h2⟩
  · dsimp only at h
    subst h
    right
    exact ⟨rfl, rfl⟩
  · dsimp only at h1 h2
    subst h1
    subst h2
    left
    rfl

/-- C9: the controller imposes no iteration bound: under the oracle whose
every response contains a tool-call part, the run never reaches the terminal
end place, at any number of steps. -/
theorem loop_admits_nontermination :
    (∀ i : Nat,
      ((llmAlwaysTool i).parts.any fun part => jsStartsWith part.type "tool-") = true)
    ∧ ∀ n : Nat,
      Place.isEnd (runSteps llmAlwaysTool dispatchGW n).place = false := by
  refine ⟨fun _ => rfl, fun n => ?_⟩
  have h : loopInv (runSteps llmAlwaysTool dispatchGW n) := by
    induction n with
    | zero =>
        left
        rfl
    | succ k ih => exact loopInv_step _ ih
  rcases h with h | ⟨h1, _⟩
  · rw [h]
    rfl
  · rw [h1]
    rfl

end ToolCallWF
